import Mathlib

/-!
# equihashverify: the node adapter `equihashverify.cc`

A shallow embedding of the four functions of `equihashverify.cc`
(`verifyEH`, `checkDiff`, `Verify`, `TargetReached`) and the properties of
the classification they compute.

The adapter calls into code that is not part of this file: the Equihash
state initialiser and validators (`crypto/equihashR.h`), BLAKE2b and SHA-256
(libsodium) and `beam::Difficulty` (`beam/core/difficulty.h`).  These are
taken as a record of pure, total functions, `Externals`; every theorem about
the adapter holds for every such record.  Each function of the adapter
returns, next to its result, the list of external calls it made, in order,
so that "the validator is not invoked" is a statement about that list.

The validator of section 4.2 of the specification is modelled separately
(`isValid`) and plugged into the record by `withSpecValidator`.
-/

namespace EquihashVerify

/-! ## Data model -/

/-- A node `Buffer` as the adapter sees it: `data` are the bytes of the
buffer (`node::Buffer::Data` points at the first one, `node::Buffer::Length`
is their number) and `beyond j` is the byte found `j` positions after the
end of the buffer, which a read through the raw pointer longer than the
buffer picks up. -/
structure Buffer where
  data : List Nat
  beyond : Nat → Nat

/-- The value of `node::Buffer::Length`. -/
def Buffer.Length (b : Buffer) : Nat := b.data.length

/-- The `cnt` bytes a callee reads through the raw data pointer of a
buffer: the bytes of the buffer, continued by what lies beyond it. -/
def Buffer.read (b : Buffer) (cnt : Nat) : List Nat :=
  (List.range cnt).map
    (fun i => if i < b.data.length then b.data.getD i 0 else b.beyond (i - b.data.length))

/-- The functions the adapter calls and does not define.  `σ` is the type
of `eh_HashState`; a digest (`beam::uintBig_t<32>`) is a natural number. -/
structure Externals (σ : Type) where
  EhRInitialiseState : Nat → Nat → Nat → σ
  blake2b_update : σ → List Nat → σ
  BeamHashI_IsValidSolution : σ → List Nat → Bool
  BeamHashII_IsValidSolution : σ → List Nat → Bool
  crypto_hash_sha256 : List Nat → Nat
  IsTargetReached : Nat → Nat → Bool

/-- One call of an external function, as recorded in the call list. -/
inductive Call where
  | ehRInitialiseState (n k r : Nat)
  | blake2bUpdate (input : List Nat)
  | beamHashI (soln : List Nat)
  | beamHashII (soln : List Nat)
  | sha256 (input : List Nat)
  | isTargetReached (diff : Nat)
  deriving DecidableEq, Repr

/-- Whether a recorded call is a call of one of the two validators. -/
def Call.isValidator : Call → Bool
  | .beamHashI _ => true
  | .beamHashII _ => true
  | _ => false

/-- A value handed to `args.GetReturnValue().Set`: `Set(false)` sets a
boolean, `Set(retval)` with `int retval` sets an integer. -/
inductive JsValue where
  | boolean (b : Bool)
  | integer (i : Int)
  deriving DecidableEq, Repr

/-- How a call of an exported function ends: with a return value, with a
JavaScript `TypeError` thrown through `isolate->ThrowException`, or with the
C++ exception `std::invalid_argument` leaving `verifyEH`. -/
inductive Outcome where
  | returned (v : JsValue)
  | typeError (msg : String)
  | invalidArgument (what : String)
  deriving DecidableEq, Repr

/-- The arguments of a call of `verify`: `Length` is `args.Length()`; a
buffer field is `none` when `node::Buffer::HasInstance` is false for that
argument; `netdiff`, `sharediff` and `arg5` are the `Uint32Value` of
`args[3]`, `args[4]` and `args[5]`. -/
structure VerifyArgs where
  Length : Nat
  header : Option Buffer
  nonce : Option Buffer
  solution : Option Buffer
  netdiff : Nat
  sharediff : Nat
  arg5 : Nat

/-- The arguments of a call of `targetReached`: `Length` is
`args.Length()`, `solution` is `none` when `args[0]` is not a buffer and
`diff` is the `Uint32Value` of `args[1]`. -/
structure TargetReachedArgs where
  Length : Nat
  solution : Option Buffer
  diff : Nat

/-! ## The adapter -/

section Adapter

variable {σ : Type}

/-- The hash state `verifyEH` hands to the validator (lines 17 to 20):
initialised for `(n, k, r)`, then 32 bytes read at `hdr`, then 8 bytes read
at `nonceBuffer`. -/
def seedState (env : Externals σ) (hdr nonceBuffer : Buffer) (n k r : Nat) : σ :=
  env.blake2b_update
    (env.blake2b_update (env.EhRInitialiseState n k r) (hdr.read 32))
    (nonceBuffer.read 8)

/-- The external calls `verifyEH` makes before it looks at the parameters
(lines 18 to 20). -/
def seedCalls (hdr nonceBuffer : Buffer) (n k r : Nat) : List Call :=
  [Call.ehRInitialiseState n k r, Call.blake2bUpdate (hdr.read 32),
    Call.blake2bUpdate (nonceBuffer.read 8)]

/-- The function `verifyEH`: the validity verdict, or the `what` of the
`std::invalid_argument` it throws, and the external calls made. -/
def verifyEH (env : Externals σ) (hdr nonceBuffer : Buffer) (soln : List Nat)
    (n k r : Nat) : Except String Bool × List Call :=
  let state := seedState env hdr nonceBuffer n k r
  let calls := seedCalls hdr nonceBuffer n k r
  if n = 150 ∧ k = 5 ∧ r = 0 then
    (.ok (env.BeamHashI_IsValidSolution state soln), calls ++ [Call.beamHashI soln])
  else if n = 150 ∧ k = 5 ∧ r = 3 then
    (.ok (env.BeamHashII_IsValidSolution state soln), calls ++ [Call.beamHashII soln])
  else
    (.error "Unsupported Equihash parameters", calls)

/-- The function `checkDiff`: SHA-256 of the solution bytes, compared by
`beam::Difficulty(diff).IsTargetReached`. -/
def checkDiff (env : Externals σ) (vecSolution : List Nat) (diff : Nat) : Bool × List Call :=
  let hv := env.crypto_hash_sha256 vecSolution
  (env.IsTargetReached diff hv, [Call.sha256 vecSolution, Call.isTargetReached diff])

/-- The C++ `a && f()`: `f` is evaluated only when `a` holds. -/
def andAlso (a : Bool) (f : Unit → Bool × List Call) : Bool × List Call :=
  if a then f () else (false, [])

/-- The value of the variable `r` of `Verify` when `verifyEH` is called
(lines 49 and 65 to 67): the sixth argument when there are exactly six, else
the initial value 0. -/
def VerifyArgs.r (args : VerifyArgs) : Nat :=
  if args.Length = 6 then args.arg5 else 0

/-- The function `Verify`, exported as `verify`. -/
def Verify (env : Externals σ) (args : VerifyArgs) : Outcome × List Call :=
  if args.Length < 5 then
    (.typeError "Wrong number of arguments", [])
  else
    let r := args.r
    match args.header, args.solution, args.nonce with
    | some header, some solution, some nonce =>
      if header.Length ≠ 32 then
        (.returned (.boolean false), [])
      else
        let vecSolution := solution.data
        match verifyEH env header nonce vecSolution 150 5 r with
        | (.error what, calls) => (.invalidArgument what, calls)
        | (.ok isValidSolution, calls) =>
          let net := andAlso isValidSolution (fun _ => checkDiff env vecSolution args.netdiff)
          if net.1 then
            (.returned (.integer 3), calls ++ net.2)
          else
            let share :=
              andAlso isValidSolution (fun _ => checkDiff env vecSolution args.sharediff)
            if share.1 then
              (.returned (.integer 2), calls ++ net.2 ++ share.2)
            else if isValidSolution then
              (.returned (.integer 1), calls ++ net.2 ++ share.2)
            else
              (.returned (.integer 0), calls ++ net.2 ++ share.2)
    | _, _, _ => (.typeError "Arguments should be buffer objects.", [])

/-- The function `TargetReached`, exported as `targetReached`. -/
def TargetReached (env : Externals σ) (args : TargetReachedArgs) : Outcome × List Call :=
  if args.Length < 2 then
    (.typeError "Wrong number of arguments", [])
  else
    match args.solution with
    | none => (.typeError "Argument should be buffer objects.", [])
    | some solution =>
      let vecSolution := solution.data
      let hv := env.crypto_hash_sha256 vecSolution
      let result := env.IsTargetReached args.diff hv
      (.returned (.boolean result), [Call.sha256 vecSolution, Call.isTargetReached args.diff])

/-- The verdict of the validator `verifyEH` selects for `r`. -/
def validatorVerdict (env : Externals σ) (header nonce : Buffer) (soln : List Nat)
    (r : Nat) : Bool :=
  if r = 0 then env.BeamHashI_IsValidSolution (seedState env header nonce 150 5 r) soln
  else env.BeamHashII_IsValidSolution (seedState env header nonce 150 5 r) soln

end Adapter

/-! ## The classification, as the specification words it -/

/-- The classifier of the specification (section 4.4, steps 3 and 5 to 7),
on the verdict of the validator and the two target comparisons: Invalid is
0, LowDifficulty 1, ValidShare 2, ValidBlock 3. -/
def classify (valid netReached shareReached : Bool) : Int :=
  if valid = false then 0
  else if netReached then 3
  else if shareReached then 2
  else 1

/-! ## The validator, as the specification describes it -/

/-- Splits a list into consecutive blocks of `size` elements; `fuel`
bounds the number of blocks. -/
def blocksOf {α : Type} (size : Nat) : Nat → List α → List (List α)
  | 0, _ => []
  | fuel + 1, xs =>
    if xs.isEmpty then [] else xs.take size :: blocksOf size fuel (xs.drop size)

/-- Strict lexicographic order on index sequences. -/
def lexLess : List Nat → List Nat → Bool
  | [], [] => false
  | [], _ :: _ => true
  | _ :: _, [] => false
  | a :: as, b :: bs => decide (a < b) || (a == b && lexLess as bs)

/-- The bitwise XOR of a list of expansion values. -/
def xorValues (vals : List Nat) : Nat := vals.foldl Nat.xor 0

/-- The `n/(k+1)`-bit window of an `n`-bit value assigned to tree level
`L` (levels count from 1). -/
def levelWindow (n k L v : Nat) : Nat :=
  (v % 2 ^ n) / 2 ^ ((L - 1) * (n / (k + 1))) % 2 ^ (n / (k + 1))

/-- The checks at one internal node of level `L`, given the indices below
it: the XOR of the leaf values below the node is zero on the window of the
level, and the index sequence of the left child is lexicographically
strictly less than that of the right child. -/
def nodeOk (H : Nat → Nat) (n k L : Nat) (node : List Nat) : Bool :=
  levelWindow n k L (xorValues (node.map H)) == 0 &&
    lexLess (node.take (node.length / 2)) (node.drop (node.length / 2))

/-- The checks at all the nodes of level `L`. -/
def levelOk (H : Nat → Nat) (n k L : Nat) (indices : List Nat) : Bool :=
  (blocksOf (2 ^ L) indices.length indices).all (nodeOk H n k L)

/-- Modelled from the spec: `IsValidSolution` of `crypto/equihashR.h` is
missing from the sources; this is the validator of section 4.2 on a decoded
index sequence, `H` being the expansion of an index under the seed: exactly
`2^k` indices, at every level 1 to `k` the window collision and the ordering
rule at every node, at the root the complete `n`-bit XOR zero and the
indices pairwise distinct. -/
def isValid (H : Nat → Nat) (n k : Nat) (indices : List Nat) : Bool :=
  indices.length == 2 ^ k &&
    (List.range k).all (fun j => levelOk H n k (j + 1) indices) &&
    xorValues (indices.map H) % 2 ^ n == 0 &&
    decide indices.Nodup

/-- Modelled from the spec: the two validators `BeamHashI` and
`BeamHashII` of `crypto/equihashR.h`, missing from the sources, replaced in
a record of externals by the validator of section 4.2 for `(150, 5)`.
`expand` hashes the seed state together with an index, `unpack` reads the
indices off the wire buffer; the specification fixes neither, so both are
arguments.  Both variants run the same tree algorithm: `r` only changes the
seed. -/
def withSpecValidator {σ : Type} (base : Externals σ) (expand : σ → Nat → Nat)
    (unpack : List Nat → List Nat) : Externals σ :=
  { base with
    BeamHashI_IsValidSolution := fun state soln => isValid (expand state) 150 5 (unpack soln)
    BeamHashII_IsValidSolution := fun state soln => isValid (expand state) 150 5 (unpack soln) }

/-- The byte length of a solution for `(n, k)`: `2^k` indices of
`n/(k+1) + 1` bits each (section 3 of the specification); 104 for
`(150, 5)`. -/
def solutionWidth (n k : Nat) : Nat := 2 ^ k * (n / (k + 1) + 1) / 8

/-! ## A concrete instance, to evaluate the definitions -/

/-- The bits of `v`, most significant first, on `width` bits. -/
def bitsOf (width v : Nat) : List Bool :=
  (List.range width).map (fun i => v / 2 ^ (width - 1 - i) % 2 == 1)

/-- The number written by a list of bits, most significant first. -/
def natOfBits (bits : List Bool) : Nat :=
  bits.foldl (fun acc b => 2 * acc + (if b then 1 else 0)) 0

/-- One way of packing fixed-width indices into bytes: the indices written
on `width` bits each, most significant bit first, cut into bytes. -/
def packIndices (width : Nat) (indices : List Nat) : List Nat :=
  let bits := indices.flatMap (bitsOf width)
  (blocksOf 8 bits.length bits).map natOfBits

/-- The inverse reading: the bytes as a bit string, cut into `width`-bit
indices. -/
def unpackIndices (width : Nat) (bytes : List Nat) : List Nat :=
  let bits := bytes.flatMap (bitsOf 8)
  (blocksOf width bits.length bits).map natOfBits

/-- A stand-in record of externals on which the definitions evaluate: the
hash state is the list of everything absorbed, the digest is a polynomial
checksum and a target is reached when the digest is below
`2^256 / (diff + 1)`; its validators reject everything. -/
def sampleBase : Externals (List Nat) where
  EhRInitialiseState := fun n k r => [n, k, r]
  blake2b_update := fun state input => state ++ input
  BeamHashI_IsValidSolution := fun _ _ => false
  BeamHashII_IsValidSolution := fun _ _ => false
  crypto_hash_sha256 := fun input => input.foldl (fun acc b => (acc * 257 + b + 1) % 2 ^ 256) 0
  IsTargetReached := fun diff hv => decide (hv * (diff + 1) < 2 ^ 256)

/-- A stand-in expansion: every index expands to the sum of the state. -/
def sampleExpand (state : List Nat) (_index : Nat) : Nat := state.sum % 2 ^ 150

/-- The stand-in record with the validator of section 4.2 on 26-bit
indices. -/
def sampleExternals : Externals (List Nat) :=
  withSpecValidator sampleBase sampleExpand (unpackIndices 26)

/-- A buffer of the given bytes followed by zero bytes in memory. -/
def bufferOf (bytes : List Nat) : Buffer := ⟨bytes, fun _ => 0⟩

/-- A 104-byte solution buffer: the indices 0 to 31 on 26 bits each. -/
def sampleSolution : Buffer := bufferOf (packIndices 26 (List.range 32))

/-- A 104-byte solution buffer in which the index 7 occurs twice. -/
def duplicateSolution : Buffer :=
  bufferOf (packIndices 26 ((List.range 31) ++ [7]))

/-- A call of `verify` with five arguments: a header of `hlen` zero bytes,
a nonce of the bytes 1 to `nlen`, a solution and two difficulties. -/
def sampleCall (hlen nlen : Nat) (solution : Buffer) (netdiff sharediff : Nat) : VerifyArgs :=
  ⟨5, some (bufferOf (List.replicate hlen 0)), some (bufferOf ((List.range nlen).map (· + 1))),
    some solution, netdiff, sharediff, 0⟩

/-- A call of `verify` with a sixth argument `r`. -/
def sampleCallR (hlen : Nat) (solution : Buffer) (r : Nat) : VerifyArgs :=
  ⟨6, some (bufferOf (List.replicate hlen 0)), some (bufferOf (List.replicate 8 0)),
    some solution, 0, 0, r⟩

/-! ## Unfolding lemmas for the adapter -/

section Lemmas

variable {σ : Type}

theorem verifyEH_beamHashI (env : Externals σ) (hdr nonceBuffer : Buffer) (soln : List Nat) :
    verifyEH env hdr nonceBuffer soln 150 5 0 =
      (.ok (env.BeamHashI_IsValidSolution (seedState env hdr nonceBuffer 150 5 0) soln),
        seedCalls hdr nonceBuffer 150 5 0 ++ [Call.beamHashI soln]) := by
  simp [verifyEH, seedCalls]

theorem verifyEH_beamHashII (env : Externals σ) (hdr nonceBuffer : Buffer) (soln : List Nat) :
    verifyEH env hdr nonceBuffer soln 150 5 3 =
      (.ok (env.BeamHashII_IsValidSolution (seedState env hdr nonceBuffer 150 5 3) soln),
        seedCalls hdr nonceBuffer 150 5 3 ++ [Call.beamHashII soln]) := by
  simp [verifyEH, seedCalls]

theorem verifyEH_unsupported (env : Externals σ) (hdr nonceBuffer : Buffer) (soln : List Nat)
    (r : Nat) (h0 : r ≠ 0) (h3 : r ≠ 3) :
    verifyEH env hdr nonceBuffer soln 150 5 r =
      (.error "Unsupported Equihash parameters", seedCalls hdr nonceBuffer 150 5 r) := by
  simp [verifyEH, seedCalls, h0, h3]

/-- For a supported `r`, `verifyEH` returns the verdict of the validator it
selects, after the three seed calls and one validator call. -/
theorem verifyEH_supported (env : Externals σ) (hdr nonceBuffer : Buffer) (soln : List Nat)
    (r : Nat) (hr : r = 0 ∨ r = 3) :
    verifyEH env hdr nonceBuffer soln 150 5 r =
      (.ok (validatorVerdict env hdr nonceBuffer soln r),
        seedCalls hdr nonceBuffer 150 5 r ++
          [if r = 0 then Call.beamHashI soln else Call.beamHashII soln]) := by
  rcases hr with rfl | rfl
  · simp [verifyEH_beamHashI, validatorVerdict]
  · simp [verifyEH_beamHashII, validatorVerdict]

/-- What `Verify` does once the argument count and the buffer checks have
passed. -/
theorem Verify_buffers (env : Externals σ) (args : VerifyArgs) (header nonce solution : Buffer)
    (hargs : 5 ≤ args.Length) (hh : args.header = some header)
    (hn : args.nonce = some nonce) (hs : args.solution = some solution) :
    Verify env args =
      if header.Length ≠ 32 then (.returned (.boolean false), [])
      else
        match verifyEH env header nonce solution.data 150 5 args.r with
        | (.error what, calls) => (.invalidArgument what, calls)
        | (.ok isValidSolution, calls) =>
          let net := andAlso isValidSolution (fun _ => checkDiff env solution.data args.netdiff)
          if net.1 then
            (.returned (.integer 3), calls ++ net.2)
          else
            let share :=
              andAlso isValidSolution (fun _ => checkDiff env solution.data args.sharediff)
            if share.1 then
              (.returned (.integer 2), calls ++ net.2 ++ share.2)
            else if isValidSolution then
              (.returned (.integer 1), calls ++ net.2 ++ share.2)
            else
              (.returned (.integer 0), calls ++ net.2 ++ share.2) := by
  have hlt : ¬ args.Length < 5 := by omega
  simp only [Verify, hlt, if_false, hh, hn, hs]

/-- The result of `Verify` on a 32-byte header and a supported `r`. -/
theorem Verify_supported (env : Externals σ) (args : VerifyArgs) (header nonce solution : Buffer)
    (hargs : 5 ≤ args.Length) (hh : args.header = some header)
    (hn : args.nonce = some nonce) (hs : args.solution = some solution)
    (hlen : header.Length = 32) (hr : args.r = 0 ∨ args.r = 3) :
    (Verify env args).1 = .returned (.integer (classify
      (validatorVerdict env header nonce solution.data args.r)
      (checkDiff env solution.data args.netdiff).1
      (checkDiff env solution.data args.sharediff).1)) := by
  rw [Verify_buffers env args header nonce solution hargs hh hn hs,
    verifyEH_supported env header nonce solution.data args.r hr]
  simp only [hlen, ne_eq, not_true_eq_false, if_false]
  cases hv : validatorVerdict env header nonce solution.data args.r <;>
    cases hnet : (checkDiff env solution.data args.netdiff).1 <;>
    cases hshare : (checkDiff env solution.data args.sharediff).1 <;>
    simp [andAlso, classify, hnet, hshare]

/-- The result of `Verify` on a 32-byte header and an unsupported `r`. -/
theorem Verify_unsupported (env : Externals σ) (args : VerifyArgs)
    (header nonce solution : Buffer)
    (hargs : 5 ≤ args.Length) (hh : args.header = some header)
    (hn : args.nonce = some nonce) (hs : args.solution = some solution)
    (hlen : header.Length = 32) (h0 : args.r ≠ 0) (h3 : args.r ≠ 3) :
    Verify env args =
      (.invalidArgument "Unsupported Equihash parameters", seedCalls header nonce 150 5 args.r) := by
  rw [Verify_buffers env args header nonce solution hargs hh hn hs,
    verifyEH_unsupported env header nonce solution.data args.r h0 h3]
  simp [hlen]

/-- The result of `Verify` on a header that is not 32 bytes long. -/
theorem Verify_badHeader (env : Externals σ) (args : VerifyArgs)
    (header nonce solution : Buffer)
    (hargs : 5 ≤ args.Length) (hh : args.header = some header)
    (hn : args.nonce = some nonce) (hs : args.solution = some solution)
    (hlen : header.Length ≠ 32) :
    Verify env args = (.returned (.boolean false), []) := by
  rw [Verify_buffers env args header nonce solution hargs hh hn hs]
  simp [hlen]

theorem classify_values (valid netReached shareReached : Bool) :
    classify valid netReached shareReached = 0 ∨ classify valid netReached shareReached = 1 ∨
      classify valid netReached shareReached = 2 ∨ classify valid netReached shareReached = 3 := by
  cases valid <;> cases netReached <;> cases shareReached <;> simp [classify]

theorem classify_eq_zero (valid netReached shareReached : Bool) :
    classify valid netReached shareReached = 0 ↔ valid = false := by
  cases valid <;> cases netReached <;> cases shareReached <;> simp [classify]

theorem classify_eq_three (valid netReached shareReached : Bool) :
    classify valid netReached shareReached = 3 ↔ valid = true ∧ netReached = true := by
  cases valid <;> cases netReached <;> cases shareReached <;> simp [classify]

end Lemmas

/-! ## The classification -/

section Classification

variable {σ : Type}

/-- C1: on a 32-byte header and `r` in `{0, 3}`, `verify` returns the
integer 3 when the validator accepts and the net-difficulty target is
reached, 2 when it accepts, the net target is not reached and the share
target is, 1 when it accepts and neither is reached, 0 when it rejects; so
the result is the classifier of the specification, it is non-zero exactly
when the validator accepts, and the net check comes before the share
check. -/
theorem verify_classification (env : Externals σ) (args : VerifyArgs)
    (header nonce solution : Buffer)
    (hargs : 5 ≤ args.Length) (hh : args.header = some header)
    (hn : args.nonce = some nonce) (hs : args.solution = some solution)
    (hlen : header.Length = 32) (hr : args.r = 0 ∨ args.r = 3) :
    (Verify env args).1 = .returned (.integer (classify
        (validatorVerdict env header nonce solution.data args.r)
        (checkDiff env solution.data args.netdiff).1
        (checkDiff env solution.data args.sharediff).1)) ∧
      ((Verify env args).1 = .returned (.integer 3) ↔
        validatorVerdict env header nonce solution.data args.r = true ∧
          (checkDiff env solution.data args.netdiff).1 = true) ∧
      ((Verify env args).1 = .returned (.integer 2) ↔
        validatorVerdict env header nonce solution.data args.r = true ∧
          (checkDiff env solution.data args.netdiff).1 = false ∧
          (checkDiff env solution.data args.sharediff).1 = true) ∧
      ((Verify env args).1 = .returned (.integer 1) ↔
        validatorVerdict env header nonce solution.data args.r = true ∧
          (checkDiff env solution.data args.netdiff).1 = false ∧
          (checkDiff env solution.data args.sharediff).1 = false) ∧
      ((Verify env args).1 = .returned (.integer 0) ↔
        validatorVerdict env header nonce solution.data args.r = false) := by
  have h := Verify_supported env args header nonce solution hargs hh hn hs hlen hr
  refine ⟨h, ?_, ?_, ?_, ?_⟩ <;> rw [h] <;>
    cases validatorVerdict env header nonce solution.data args.r <;>
    cases (checkDiff env solution.data args.netdiff).1 <;>
    cases (checkDiff env solution.data args.sharediff).1 <;>
    simp [classify]

/-- C1, at a 32-byte header, an 8-byte nonce and a solution the sample
validator accepts: net target reached gives 3. -/
theorem verify_classification_witness :
    (Verify sampleExternals (sampleCall 32 8 sampleSolution 0 0)).1 = .returned (.integer 3) :=
  (verify_classification sampleExternals (sampleCall 32 8 sampleSolution 0 0)
    (bufferOf (List.replicate 32 0)) (bufferOf ((List.range 8).map (· + 1))) sampleSolution
    (by decide) rfl rfl rfl (by decide) (Or.inl (by decide))).2.1.mpr (by decide!)

/-- C2: a header that is not 32 bytes long must give the integer 0
(Invalid); at a 31-byte header the code returns the boolean `false` of line
78 instead, which is not the integer 0 that every other exit of `Verify`
sets for an invalid result. -/
theorem verify_short_header_not_integer :
    (bufferOf (List.replicate 31 0)).Length = 31 ∧
      (Verify sampleExternals (sampleCall 31 8 sampleSolution 0 0)).1 =
        .returned (.boolean false) ∧
      (Verify sampleExternals (sampleCall 31 8 sampleSolution 0 0)).1 ≠
        .returned (.integer 0) := by
  decide

/-- The header-length guard of lines 76 to 80: when the header buffer is
not exactly 32 bytes long, whatever the nonce, the solution, the
difficulties and `r`, `Verify` sets the boolean `false` and makes no
external call, so neither validator is invoked. -/
theorem verify_header_length_guard (env : Externals σ) (args : VerifyArgs)
    (header nonce solution : Buffer)
    (hargs : 5 ≤ args.Length) (hh : args.header = some header)
    (hn : args.nonce = some nonce) (hs : args.solution = some solution)
    (hlen : header.Length ≠ 32) :
    (Verify env args).1 = .returned (.boolean false) ∧ (Verify env args).2 = [] ∧
      ∀ c ∈ (Verify env args).2, c.isValidator = false := by
  rw [Verify_badHeader env args header nonce solution hargs hh hn hs hlen]
  simp

/-- The header-length guard at a 31-byte header. -/
theorem verify_header_length_guard_witness :
    (Verify sampleExternals (sampleCall 31 8 sampleSolution 0 0)).1 =
        .returned (.boolean false) ∧
      (Verify sampleExternals (sampleCall 31 8 sampleSolution 0 0)).2 = [] :=
  have h := verify_header_length_guard sampleExternals (sampleCall 31 8 sampleSolution 0 0)
    (bufferOf (List.replicate 31 0)) (bufferOf ((List.range 8).map (· + 1))) sampleSolution
    (by decide) rfl rfl rfl (by decide)
  ⟨h.1, h.2.1⟩

/-- C3: on a 32-byte header, an `r` that is neither 0 nor 3 makes the call
end with the `std::invalid_argument` "Unsupported Equihash parameters"
thrown by `verifyEH`, after the seed calls and without a validator call,
and no value is returned; for `r = 0` and for `r = 3` `verifyEH` throws
nothing and returns the verdict of the BeamHash I, respectively BeamHash II,
validator on the seed state. -/
theorem verify_unsupported_parameters (env : Externals σ) (args : VerifyArgs)
    (header nonce solution : Buffer)
    (hargs : 5 ≤ args.Length) (hh : args.header = some header)
    (hn : args.nonce = some nonce) (hs : args.solution = some solution)
    (hlen : header.Length = 32) :
    (args.r ≠ 0 → args.r ≠ 3 →
      (verifyEH env header nonce solution.data 150 5 args.r).1 =
          .error "Unsupported Equihash parameters" ∧
        (Verify env args).1 = .invalidArgument "Unsupported Equihash parameters" ∧
        (∀ v, (Verify env args).1 ≠ .returned v) ∧
        (∀ c ∈ (Verify env args).2, c.isValidator = false)) ∧
      (args.r = 0 →
        (verifyEH env header nonce solution.data 150 5 args.r).1 =
            .ok (env.BeamHashI_IsValidSolution (seedState env header nonce 150 5 0)
              solution.data) ∧
          Call.beamHashI solution.data ∈ (Verify env args).2 ∧
          ∀ what, (Verify env args).1 ≠ .invalidArgument what) ∧
      (args.r = 3 →
        (verifyEH env header nonce solution.data 150 5 args.r).1 =
            .ok (env.BeamHashII_IsValidSolution (seedState env header nonce 150 5 3)
              solution.data) ∧
          Call.beamHashII solution.data ∈ (Verify env args).2 ∧
          ∀ what, (Verify env args).1 ≠ .invalidArgument what) := by
  refine ⟨?_, ?_, ?_⟩
  · intro h0 h3
    rw [Verify_unsupported env args header nonce solution hargs hh hn hs hlen h0 h3,
      verifyEH_unsupported env header nonce solution.data args.r h0 h3]
    simp [seedCalls, Call.isValidator]
  · intro h0
    have hv := Verify_supported env args header nonce solution hargs hh hn hs hlen (Or.inl h0)
    refine ⟨by rw [h0, verifyEH_beamHashI], ?_, fun what => by rw [hv]; simp⟩
    rw [Verify_buffers env args header nonce solution hargs hh hn hs, h0, verifyEH_beamHashI]
    simp only [hlen, ne_eq, not_true_eq_false, if_false]
    split_ifs <;> simp
  · intro h3
    have hv := Verify_supported env args header nonce solution hargs hh hn hs hlen (Or.inr h3)
    refine ⟨by rw [h3, verifyEH_beamHashII], ?_, fun what => by rw [hv]; simp⟩
    rw [Verify_buffers env args header nonce solution hargs hh hn hs, h3, verifyEH_beamHashII]
    simp only [hlen, ne_eq, not_true_eq_false, if_false]
    split_ifs <;> simp

/-- C3, at a 32-byte header and `r = 5`. -/
theorem verify_unsupported_parameters_witness :
    (Verify sampleExternals (sampleCallR 32 sampleSolution 5)).1 =
      .invalidArgument "Unsupported Equihash parameters" :=
  ((verify_unsupported_parameters sampleExternals (sampleCallR 32 sampleSolution 5)
    (bufferOf (List.replicate 32 0)) (bufferOf (List.replicate 8 0)) sampleSolution
    (by decide) rfl rfl rfl (by decide)).1 (by decide) (by decide)).2.1

/-- C10: the header check comes first: with an `r` that is neither 0 nor
3, a header that is not 32 bytes long makes `verify` return its negative
result, the boolean `false`, with no external call and no exception, and the
unsupported-parameter exception ends the call exactly when the header is 32
bytes long. -/
theorem verify_header_check_precedes (env : Externals σ) (args : VerifyArgs)
    (header nonce solution : Buffer)
    (hargs : 5 ≤ args.Length) (hh : args.header = some header)
    (hn : args.nonce = some nonce) (hs : args.solution = some solution)
    (h0 : args.r ≠ 0) (h3 : args.r ≠ 3) :
    (header.Length ≠ 32 →
      Verify env args = (.returned (.boolean false), []) ∧
        ∀ what, (Verify env args).1 ≠ .invalidArgument what) ∧
      ((∃ what, (Verify env args).1 = .invalidArgument what) ↔ header.Length = 32) := by
  by_cases hlen : header.Length = 32
  · rw [Verify_unsupported env args header nonce solution hargs hh hn hs hlen h0 h3]
    simp [hlen]
  · rw [Verify_badHeader env args header nonce solution hargs hh hn hs hlen]
    simp [hlen]

/-- C10, at a 31-byte header and `r = 5`. -/
theorem verify_header_check_precedes_witness :
    Verify sampleExternals (sampleCallR 31 sampleSolution 5) = (.returned (.boolean false), []) :=
  ((verify_header_check_precedes sampleExternals (sampleCallR 31 sampleSolution 5)
    (bufferOf (List.replicate 31 0)) (bufferOf (List.replicate 8 0)) sampleSolution
    (by decide) rfl rfl rfl (by decide) (by decide)).1 (by decide)).1

end Classification

/-! ## The comparator and the standalone entry point -/

section Comparator

variable {σ : Type}

/-- C4: `targetReached` returns what `checkDiff` computes, with the same
external calls: the comparison `IsTargetReached` of the difficulty with the
SHA-256 digest of the raw solution bytes; and when the validator accepts,
`verify` returns 3 exactly when `targetReached` on the same solution and the
net difficulty returns `true`. -/
theorem targetReached_eq_checkDiff (env : Externals σ) (solution : Buffer) (diff argc : Nat)
    (hargc : 2 ≤ argc) :
    TargetReached env ⟨argc, some solution, diff⟩ =
        (.returned (.boolean (checkDiff env solution.data diff).1),
          (checkDiff env solution.data diff).2) ∧
      (checkDiff env solution.data diff).1 =
        env.IsTargetReached diff (env.crypto_hash_sha256 solution.data) ∧
      ∀ (args : VerifyArgs) (header nonce : Buffer), 5 ≤ args.Length →
        args.header = some header → args.nonce = some nonce →
        args.solution = some solution → header.Length = 32 →
        (args.r = 0 ∨ args.r = 3) →
        validatorVerdict env header nonce solution.data args.r = true →
        ((Verify env args).1 = .returned (.integer 3) ↔
          (TargetReached env ⟨argc, some solution, args.netdiff⟩).1 =
            .returned (.boolean true)) := by
  have hlt : ¬ argc < 2 := by omega
  refine ⟨by simp [TargetReached, checkDiff, hlt], rfl, ?_⟩
  intro args header nonce hargs hh hn hs hlen hr hvalid
  rw [Verify_supported env args header nonce solution hargs hh hn hs hlen hr, hvalid]
  cases hnet : (checkDiff env solution.data args.netdiff).1 <;>
    cases (checkDiff env solution.data args.sharediff).1 <;>
    simp [TargetReached, checkDiff, classify, hlt] at hnet ⊢ <;> simp [hnet]

/-- C4, at the sample solution and difficulty 0 with two arguments. -/
theorem targetReached_eq_checkDiff_witness :
    TargetReached sampleExternals ⟨2, some sampleSolution, 0⟩ =
      (.returned (.boolean (checkDiff sampleExternals sampleSolution.data 0).1),
        (checkDiff sampleExternals sampleSolution.data 0).2) :=
  (targetReached_eq_checkDiff sampleExternals sampleSolution 0 2 (by decide)).1

end Comparator

/-! ## The nonce -/

section Nonce

variable {σ : Type}

/-- A read of `cnt` bytes from a buffer that has at least `cnt` bytes
returns its first `cnt` bytes. -/
theorem Buffer.read_of_le (b : Buffer) (cnt : Nat) (h : cnt ≤ b.data.length) :
    b.read cnt = b.data.take cnt := by
  apply List.ext_getElem
  · simp [Buffer.read, h]
  · intro i h1 h2
    have hi : i < cnt := by simpa [Buffer.read] using h1
    have hi2 : i < b.data.length := by omega
    simp [Buffer.read, hi2, List.getD_eq_getElem?_getD, List.getElem?_eq_getElem]

/-- Two buffers that agree on their first `cnt` bytes read the same. -/
theorem Buffer.read_congr (a b : Buffer) (cnt : Nat) (ha : cnt ≤ a.data.length)
    (hb : cnt ≤ b.data.length) (h : a.data.take cnt = b.data.take cnt) :
    a.read cnt = b.read cnt := by
  rw [Buffer.read_of_le a cnt ha, Buffer.read_of_le b cnt hb, h]

end Nonce

/-! ## The solution buffer -/

section Solution

variable {σ : Type}

/-- The validator of section 4.2 rejects an index sequence that is not
duplicate free, whatever the expansion values. -/
theorem isValid_of_not_nodup (H : Nat → Nat) (n k : Nat) (indices : List Nat)
    (h : ¬ indices.Nodup) : isValid H n k indices = false := by
  simp [isValid, h]

/-- C7: with the validator of section 4.2 in place of the two missing
validators, for every header, nonce and supported `r`, a solution whose
index sequence has the same index at two positions `i < j` is rejected,
whatever the expansion values and so whatever their XOR: the validator
returns false, `verifyEH` returns false and `verify` returns 0. -/
theorem verify_duplicate_index_rejected (base : Externals σ) (expand : σ → Nat → Nat)
    (unpack : List Nat → List Nat) (args : VerifyArgs) (header nonce solution : Buffer)
    (i j : Nat)
    (hargs : 5 ≤ args.Length) (hh : args.header = some header)
    (hn : args.nonce = some nonce) (hs : args.solution = some solution)
    (hlen : header.Length = 32) (hr : args.r = 0 ∨ args.r = 3)
    (hij : i < j) (hj : j < (unpack solution.data).length)
    (hdup : (unpack solution.data)[i]? = (unpack solution.data)[j]?) :
    (∀ H : Nat → Nat, isValid H 150 5 (unpack solution.data) = false) ∧
      (verifyEH (withSpecValidator base expand unpack) header nonce solution.data
        150 5 args.r).1 = .ok false ∧
      (Verify (withSpecValidator base expand unpack) args).1 = .returned (.integer 0) := by
  have hnd : ¬ (unpack solution.data).Nodup := by
    intro hnodup
    exact List.nodup_iff_getElem?_ne_getElem?.mp hnodup i j hij hj hdup
  have hverdict : validatorVerdict (withSpecValidator base expand unpack) header nonce
      solution.data args.r = false := by
    simp only [validatorVerdict, withSpecValidator]
    split_ifs <;> exact isValid_of_not_nodup _ 150 5 _ hnd
  refine ⟨fun H => isValid_of_not_nodup H 150 5 _ hnd, ?_, ?_⟩
  · rw [verifyEH_supported _ header nonce solution.data args.r hr, hverdict]
  · rw [Verify_supported _ args header nonce solution hargs hh hn hs hlen hr, hverdict]
    simp [classify]

/-- C7, at a 104-byte solution whose indices are 0 to 30 followed by 7:
all 32 sample expansion values are equal, so their XOR is zero, and the
call returns 0. -/
theorem verify_duplicate_index_rejected_witness :
    (unpackIndices 26 duplicateSolution.data)[7]? = (unpackIndices 26 duplicateSolution.data)[31]? ∧
      xorValues ((unpackIndices 26 duplicateSolution.data).map
        (sampleExpand (seedState sampleExternals (bufferOf (List.replicate 32 0))
          (bufferOf ((List.range 8).map (· + 1))) 150 5 0))) = 0 ∧
      (Verify sampleExternals (sampleCall 32 8 duplicateSolution 0 0)).1 =
        .returned (.integer 0) :=
  ⟨by decide!, by decide!,
    (verify_duplicate_index_rejected sampleBase sampleExpand (unpackIndices 26)
      (sampleCall 32 8 duplicateSolution 0 0)
      (bufferOf (List.replicate 32 0)) (bufferOf ((List.range 8).map (· + 1))) duplicateSolution
      7 31 (by decide) rfl rfl rfl (by decide) (Or.inl (by decide)) (by decide) (by decide!)
      (by decide!)).2.2⟩

/-- C8, as stated, fails: on a 32-byte header and a 3-byte solution buffer,
whose length is not the 104 bytes of 32 indices of 26 bits, `verify` raises
no `TypeError` and returns the classification 0. -/
theorem verify_short_solution_classified :
    (bufferOf (List.replicate 32 0)).Length = 32 ∧
      (bufferOf [1, 2, 3]).Length ≠ solutionWidth 150 5 ∧
      (Verify sampleExternals (sampleCall 32 8 (bufferOf [1, 2, 3]) 0 0)).1 =
        .returned (.integer 0) := by
  decide

/-- C8, amended: on a 32-byte header and `r` in `{0, 3}`, a solution buffer
whose length does not match 32 indices of 26 bits raises no error of any
kind: its bytes are handed as they are to the validator selected by `r`,
and `verify` returns the classification 0, 1, 2 or 3 of that verdict, 0
exactly when the validator rejects. -/
theorem verify_solution_length_unchecked (env : Externals σ) (args : VerifyArgs)
    (header nonce solution : Buffer)
    (hargs : 5 ≤ args.Length) (hh : args.header = some header)
    (hn : args.nonce = some nonce) (hs : args.solution = some solution)
    (hlen : header.Length = 32) (hr : args.r = 0 ∨ args.r = 3)
    (_hsol : solution.Length ≠ solutionWidth 150 5) :
    (∀ msg, (Verify env args).1 ≠ .typeError msg) ∧
      (∀ what, (Verify env args).1 ≠ .invalidArgument what) ∧
      (verifyEH env header nonce solution.data 150 5 args.r).1 =
        .ok (validatorVerdict env header nonce solution.data args.r) ∧
      (Call.beamHashI solution.data ∈ (verifyEH env header nonce solution.data 150 5 args.r).2 ∨
        Call.beamHashII solution.data ∈
          (verifyEH env header nonce solution.data 150 5 args.r).2) ∧
      (∃ v : Int, (v = 0 ∨ v = 1 ∨ v = 2 ∨ v = 3) ∧
        (Verify env args).1 = .returned (.integer v) ∧
        (v = 0 ↔ validatorVerdict env header nonce solution.data args.r = false)) := by
  have hv := Verify_supported env args header nonce solution hargs hh hn hs hlen hr
  refine ⟨fun msg => by rw [hv]; simp, fun what => by rw [hv]; simp, ?_, ?_, ?_⟩
  · rw [verifyEH_supported env header nonce solution.data args.r hr]
  · rw [verifyEH_supported env header nonce solution.data args.r hr]
    rcases hr with h | h <;> simp [h]
  · exact ⟨_, classify_values _ _ _, hv, classify_eq_zero _ _ _⟩

/-- C8, amended, at a 32-byte header and a 3-byte solution. -/
theorem verify_solution_length_unchecked_witness :
    ∃ v : Int, (v = 0 ∨ v = 1 ∨ v = 2 ∨ v = 3) ∧
      (Verify sampleExternals (sampleCall 32 8 (bufferOf [1, 2, 3]) 0 0)).1 =
        .returned (.integer v) ∧
      (v = 0 ↔ validatorVerdict sampleExternals (bufferOf (List.replicate 32 0))
        (bufferOf ((List.range 8).map (· + 1))) (bufferOf [1, 2, 3]).data
        (sampleCall 32 8 (bufferOf [1, 2, 3]) 0 0).r = false) :=
  (verify_solution_length_unchecked sampleExternals (sampleCall 32 8 (bufferOf [1, 2, 3]) 0 0)
    (bufferOf (List.replicate 32 0)) (bufferOf ((List.range 8).map (· + 1))) (bufferOf [1, 2, 3])
    (by decide) rfl rfl rfl (by decide) (Or.inl (by decide)) (by decide)).2.2.2.2

end Solution

end EquihashVerify
